import Mathlib

/-!
Shallow embedding of the orchestration core of the multi-agent auto-insurance
claim processing pipeline (Python sources under `src/`), together with proofs
of the specification claims about it.

Conventions of the embedding:
* Python strings are modelled as Lean `String` / `List Char`.
* Python `int` is modelled as `Int` (arbitrary precision, may be negative).
* The pydantic `Literal["APPROVED","REJECTED","PARTIAL","ESCALATE"]` status
  field is modelled as the inductive `Status`; pydantic validation guarantees
  a constructed `AgentResponse` carries one of exactly these four values.
* The external reasoning engine is a black box: its behaviour on one call is
  modelled as `EngineResult` — either final text or a raised exception
  (timeouts, transport faults and tool errors all surface as exceptions).
* Stateful code (the module-level claim-data slot in `src/tools.py`) is
  modelled by explicit state passing of type `Option ClaimData`.
* `json.loads` followed by `AgentResponse(**d)` is modelled by an executable
  parser/validator over the JSON fragment actually relevant here (flat
  objects with string/integer/boolean/null members); Python error-message
  text is abstracted to short descriptive strings.
-/

/-- Status enumeration of `models.AgentResponse.status`
(`Literal["APPROVED", "REJECTED", "PARTIAL", "ESCALATE"]`). -/
inductive Status where
  | APPROVED
  | REJECTED
  | PARTIAL
  | ESCALATE
deriving DecidableEq, Repr

/-- Embedding of `models.AgentResponse`: the standard response format for all
agents.  pydantic guarantees `status` is one of the four literals, which the
inductive `Status` captures; `reason` and `explanation` are plain strings
(pydantic places no emptiness constraint on them). -/
structure AgentResponse where
  agent : String
  status : Status
  reason : String
  explanation : String
deriving DecidableEq, Repr

/-- Result of one first-matching-element scan, as Python's
`next(resp for resp in agent_responses if resp.status == s)`:
the first list element with the given status.  Membership of `s` in
`[resp.status for resp in agent_responses]` is exactly this being `some`. -/
def firstWithStatus (s : Status) (agent_responses : List AgentResponse) :
    Option AgentResponse :=
  agent_responses.find? (fun resp => resp.status == s)

/-- Embedding of the `except`-branch of
`ClaimDeciderAgent.make_final_decision` (src/src/agents/claim_decider/agent.py,
lines 73-106): the deterministic fallback decision logic.  The Python code
tests `"REJECTED" in statuses` and then takes the first matching response via
`next(...)`; membership in the status list is equivalent to `firstWithStatus`
returning `some`, so the two are fused here (the `none` arms are the
unreachable `StopIteration` cases, proved dead in `fallback_never_unreachable`
below). -/
def fallbackDecision (agent_responses : List AgentResponse) : AgentResponse :=
  match firstWithStatus Status.REJECTED agent_responses with
  | some rejected_resp =>
      { agent := "ClaimDecider"
        status := Status.REJECTED
        reason := rejected_resp.reason
        explanation := "Claim rejected by " ++ rejected_resp.agent ++ ": " ++
          rejected_resp.explanation }
  | none =>
    match firstWithStatus Status.ESCALATE agent_responses with
    | some escalate_resp =>
        { agent := "ClaimDecider"
          status := Status.ESCALATE
          reason := escalate_resp.reason
          explanation := "Claim escalated by " ++ escalate_resp.agent ++ ": " ++
            escalate_resp.explanation }
    | none =>
      match firstWithStatus Status.PARTIAL agent_responses with
      | some partial_resp =>
          { agent := "ClaimDecider"
            status := Status.PARTIAL
            reason := partial_resp.reason
            explanation := "Partial approval due to " ++ partial_resp.agent ++
              ": " ++ partial_resp.explanation }
      | none =>
          { agent := "ClaimDecider"
            status := Status.APPROVED
            reason := "all_agents_approved"
            explanation := "All agents approved the claim" }

/-- Membership of a status in the mapped status list is equivalent to the
first-match scan finding an element: this is what makes the `if s in statuses`
plus `next(...)` structure of the Python code total. -/
theorem firstWithStatus_eq_none_iff (s : Status) (rs : List AgentResponse) :
    firstWithStatus s rs = none ↔ ∀ r ∈ rs, r.status ≠ s := by
  unfold firstWithStatus
  rw [List.find?_eq_none]
  constructor
  · intro h r hr
    have := h r hr
    simpa using this
  · intro h r hr
    simpa using h r hr

theorem firstWithStatus_some_mem {s : Status} {rs : List AgentResponse}
    {r : AgentResponse} (h : firstWithStatus s rs = some r) :
    r ∈ rs ∧ r.status = s := by
  unfold firstWithStatus at h
  refine ⟨List.mem_of_find?_eq_some h, ?_⟩
  have := List.find?_some h
  simpa using this

/-- Dead-branch lemma: the `none` arms inside `fallbackDecision` correspond to
Python's `next(...)` raising `StopIteration`, which cannot happen because the
scan is guarded by the membership test; here, `firstWithStatus` is `some`
exactly when a response with that status is present. -/
theorem fallback_never_unreachable (s : Status) (rs : List AgentResponse)
    (h : ∃ r ∈ rs, r.status = s) : ∃ r, firstWithStatus s rs = some r := by
  rcases hF : firstWithStatus s rs with _ | r
  · rcases h with ⟨r, hr, hs⟩
    exact absurd hs ((firstWithStatus_eq_none_iff s rs).mp hF r hr)
  · exact ⟨r, rfl⟩

/-- Equation lemma: a REJECTED response present (first one `r`) forces the
rejected branch. -/
theorem fallback_eq_of_rejected {rs : List AgentResponse} {r : AgentResponse}
    (h : firstWithStatus Status.REJECTED rs = some r) :
    fallbackDecision rs = ⟨"ClaimDecider", Status.REJECTED, r.reason,
      "Claim rejected by " ++ r.agent ++ ": " ++ r.explanation⟩ := by
  unfold fallbackDecision
  rw [h]

/-- Equation lemma for the escalate branch. -/
theorem fallback_eq_of_escalate {rs : List AgentResponse} {e : AgentResponse}
    (hR : firstWithStatus Status.REJECTED rs = none)
    (hE : firstWithStatus Status.ESCALATE rs = some e) :
    fallbackDecision rs = ⟨"ClaimDecider", Status.ESCALATE, e.reason,
      "Claim escalated by " ++ e.agent ++ ": " ++ e.explanation⟩ := by
  unfold fallbackDecision
  rw [hR, hE]

/-- Equation lemma for the partial branch. -/
theorem fallback_eq_partial_tier {rs : List AgentResponse} {p : AgentResponse}
    (hR : firstWithStatus Status.REJECTED rs = none)
    (hE : firstWithStatus Status.ESCALATE rs = none)
    (hP : firstWithStatus Status.PARTIAL rs = some p) :
    fallbackDecision rs = ⟨"ClaimDecider", Status.PARTIAL, p.reason,
      "Partial approval due to " ++ p.agent ++ ": " ++ p.explanation⟩ := by
  unfold fallbackDecision
  rw [hR, hE, hP]

/-- Equation lemma for the unanimous-approval branch. -/
theorem fallback_eq_of_approved {rs : List AgentResponse}
    (hR : firstWithStatus Status.REJECTED rs = none)
    (hE : firstWithStatus Status.ESCALATE rs = none)
    (hP : firstWithStatus Status.PARTIAL rs = none) :
    fallbackDecision rs = ⟨"ClaimDecider", Status.APPROVED,
      "all_agents_approved", "All agents approved the claim"⟩ := by
  unfold fallbackDecision
  rw [hR, hE, hP]

/-- C1: the deterministic fallback aggregator returns a final verdict with
agent `"ClaimDecider"` whose status follows the strict precedence
REJECTED > ESCALATE > PARTIAL > APPROVED (final status REJECTED iff some
verdict is REJECTED; else ESCALATE iff some is ESCALATE; else PARTIAL iff
some is PARTIAL; else APPROVED); the first verdict in sequence order with the
winning status supplies the final `reason`, and the final `explanation` is
that verdict's explanation preceded by a phrase naming its origin agent; an
empty sequence yields APPROVED with the unanimous-approval reason. -/
theorem fallback_aggregator_precedence (rs : List AgentResponse) :
    (fallbackDecision rs).agent = "ClaimDecider"
    ∧ ((fallbackDecision rs).status = Status.REJECTED ↔
        ∃ r ∈ rs, r.status = Status.REJECTED)
    ∧ ((fallbackDecision rs).status = Status.ESCALATE ↔
        ((∀ r ∈ rs, r.status ≠ Status.REJECTED) ∧
          ∃ r ∈ rs, r.status = Status.ESCALATE))
    ∧ ((fallbackDecision rs).status = Status.PARTIAL ↔
        ((∀ r ∈ rs, r.status ≠ Status.REJECTED ∧ r.status ≠ Status.ESCALATE) ∧
          ∃ r ∈ rs, r.status = Status.PARTIAL))
    ∧ ((fallbackDecision rs).status = Status.APPROVED ↔
        (∀ r ∈ rs, r.status ≠ Status.REJECTED ∧ r.status ≠ Status.ESCALATE ∧
          r.status ≠ Status.PARTIAL))
    ∧ (∀ r, firstWithStatus Status.REJECTED rs = some r →
        fallbackDecision rs = ⟨"ClaimDecider", Status.REJECTED, r.reason,
          "Claim rejected by " ++ r.agent ++ ": " ++ r.explanation⟩)
    ∧ (firstWithStatus Status.REJECTED rs = none →
        ∀ r, firstWithStatus Status.ESCALATE rs = some r →
        fallbackDecision rs = ⟨"ClaimDecider", Status.ESCALATE, r.reason,
          "Claim escalated by " ++ r.agent ++ ": " ++ r.explanation⟩)
    ∧ (firstWithStatus Status.REJECTED rs = none →
        firstWithStatus Status.ESCALATE rs = none →
        ∀ r, firstWithStatus Status.PARTIAL rs = some r →
        fallbackDecision rs = ⟨"ClaimDecider", Status.PARTIAL, r.reason,
          "Partial approval due to " ++ r.agent ++ ": " ++ r.explanation⟩)
    ∧ (rs = [] → fallbackDecision rs = ⟨"ClaimDecider", Status.APPROVED,
        "all_agents_approved", "All agents approved the claim"⟩) := by
  rcases hR : firstWithStatus Status.REJECTED rs with _ | r
  · rcases hE : firstWithStatus Status.ESCALATE rs with _ | e
    · rcases hP : firstWithStatus Status.PARTIAL rs with _ | p
      · have hRn := (firstWithStatus_eq_none_iff _ rs).mp hR
        have hEn := (firstWithStatus_eq_none_iff _ rs).mp hE
        have hPn := (firstWithStatus_eq_none_iff _ rs).mp hP
        rw [fallback_eq_of_approved hR hE hP]
        refine ⟨rfl, ?_, ?_, ?_, ?_, ?_, ?_, ?_, ?_⟩
        · constructor
          · intro h; exact Status.noConfusion h
          · rintro ⟨x, hx, hs⟩; exact absurd hs (hRn x hx)
        · constructor
          · intro h; exact Status.noConfusion h
          · rintro ⟨-, x, hx, hs⟩; exact absurd hs (hEn x hx)
        · constructor
          · intro h; exact Status.noConfusion h
          · rintro ⟨-, x, hx, hs⟩; exact absurd hs (hPn x hx)
        · exact iff_of_true rfl (fun x hx => ⟨hRn x hx, hEn x hx, hPn x hx⟩)
        · intro x hx; exact Option.noConfusion hx
        · intro _ x hx; exact Option.noConfusion hx
        · intro _ _ x hx; exact Option.noConfusion hx
        · intro _; rfl
      · have hRn := (firstWithStatus_eq_none_iff _ rs).mp hR
        have hEn := (firstWithStatus_eq_none_iff _ rs).mp hE
        obtain ⟨hmem, hstat⟩ := firstWithStatus_some_mem hP
        rw [fallback_eq_partial_tier hR hE hP]
        refine ⟨rfl, ?_, ?_, ?_, ?_, ?_, ?_, ?_, ?_⟩
        · constructor
          · intro h; exact Status.noConfusion h
          · rintro ⟨x, hx, hs⟩; exact absurd hs (hRn x hx)
        · constructor
          · intro h; exact Status.noConfusion h
          · rintro ⟨-, x, hx, hs⟩; exact absurd hs (hEn x hx)
        · exact iff_of_true rfl
            ⟨fun x hx => ⟨hRn x hx, hEn x hx⟩, p, hmem, hstat⟩
        · constructor
          · intro h; exact Status.noConfusion h
          · intro h; exact absurd hstat (h p hmem).2.2
        · intro x hx; exact Option.noConfusion hx
        · intro _ x hx; exact Option.noConfusion hx
        · intro _ _ x hx
          cases hx
          rfl
        · intro h
          subst h
          simp [firstWithStatus] at hP
    · have hRn := (firstWithStatus_eq_none_iff _ rs).mp hR
      obtain ⟨hmem, hstat⟩ := firstWithStatus_some_mem hE
      rw [fallback_eq_of_escalate hR hE]
      refine ⟨rfl, ?_, ?_, ?_, ?_, ?_, ?_, ?_, ?_⟩
      · constructor
        · intro h; exact Status.noConfusion h
        · rintro ⟨x, hx, hs⟩; exact absurd hs (hRn x hx)
      · exact iff_of_true rfl ⟨hRn, e, hmem, hstat⟩
      · constructor
        · intro h; exact Status.noConfusion h
        · rintro ⟨h, -⟩; exact absurd hstat (h e hmem).2
      · constructor
        · intro h; exact Status.noConfusion h
        · intro h; exact absurd hstat (h e hmem).2.1
      · intro x hx; exact Option.noConfusion hx
      · intro _ x hx
        cases hx
        rfl
      · intro _ h; exact Option.noConfusion h
      · intro h
        subst h
        simp [firstWithStatus] at hE
  · obtain ⟨hmem, hstat⟩ := firstWithStatus_some_mem hR
    rw [fallback_eq_of_rejected hR]
    refine ⟨rfl, ?_, ?_, ?_, ?_, ?_, ?_, ?_, ?_⟩
    · exact iff_of_true rfl ⟨r, hmem, hstat⟩
    · constructor
      · intro h; exact Status.noConfusion h
      · rintro ⟨h, -⟩; exact absurd hstat (h r hmem)
    · constructor
      · intro h; exact Status.noConfusion h
      · rintro ⟨h, -⟩; exact absurd hstat (h r hmem).1
    · constructor
      · intro h; exact Status.noConfusion h
      · intro h; exact absurd hstat (h r hmem).1
    · intro x hx
      cases hx
      rfl
    · intro h; exact Option.noConfusion h
    · intro h; exact Option.noConfusion h
    · intro h
      subst h
      simp [firstWithStatus] at hR

/-- Witness for C1 at the spec's scenario: nine specialist verdicts where
agent number 3 returns REJECTED and all others APPROVED; the fallback final
status is REJECTED and the explanation references agent number 3. -/
theorem fallback_aggregator_precedence_witness :
    fallbackDecision
      [⟨"Agent1", Status.APPROVED, "ok", "fine"⟩,
       ⟨"Agent2", Status.APPROVED, "ok", "fine"⟩,
       ⟨"Agent3", Status.REJECTED, "fraud_detected", "odometer rollback"⟩,
       ⟨"Agent4", Status.APPROVED, "ok", "fine"⟩,
       ⟨"Agent5", Status.APPROVED, "ok", "fine"⟩,
       ⟨"Agent6", Status.APPROVED, "ok", "fine"⟩,
       ⟨"Agent7", Status.APPROVED, "ok", "fine"⟩,
       ⟨"Agent8", Status.APPROVED, "ok", "fine"⟩,
       ⟨"Agent9", Status.APPROVED, "ok", "fine"⟩] =
    ⟨"ClaimDecider", Status.REJECTED, "fraud_detected",
      "Claim rejected by Agent3: odometer rollback"⟩ :=
  (fallback_aggregator_precedence _).2.2.2.2.2.1
    ⟨"Agent3", Status.REJECTED, "fraud_detected", "odometer rollback"⟩
    (by decide)

/-- C7: the deterministic fallback aggregator is a pure function of the
verdict sequence — two runs on equal verdict sequences return the same final
verdict in every component.  In the embedding the fallback branch reads
nothing but its `agent_responses` argument, matching the Python code, so
determinism is congruence. -/
theorem fallback_aggregator_pure (rs1 rs2 : List AgentResponse)
    (h : rs1 = rs2) :
    (fallbackDecision rs1).agent = (fallbackDecision rs2).agent
    ∧ (fallbackDecision rs1).status = (fallbackDecision rs2).status
    ∧ (fallbackDecision rs1).reason = (fallbackDecision rs2).reason
    ∧ (fallbackDecision rs1).explanation = (fallbackDecision rs2).explanation := by
  subst h
  exact ⟨rfl, rfl, rfl, rfl⟩

/-- Witness for C7 at a concrete one-element verdict sequence. -/
theorem fallback_aggregator_pure_witness :
    (fallbackDecision [⟨"PolicyValidator", Status.PARTIAL, "limit", "capped"⟩]).agent =
      (fallbackDecision [⟨"PolicyValidator", Status.PARTIAL, "limit", "capped"⟩]).agent
    ∧ (fallbackDecision [⟨"PolicyValidator", Status.PARTIAL, "limit", "capped"⟩]).status =
      (fallbackDecision [⟨"PolicyValidator", Status.PARTIAL, "limit", "capped"⟩]).status
    ∧ (fallbackDecision [⟨"PolicyValidator", Status.PARTIAL, "limit", "capped"⟩]).reason =
      (fallbackDecision [⟨"PolicyValidator", Status.PARTIAL, "limit", "capped"⟩]).reason
    ∧ (fallbackDecision [⟨"PolicyValidator", Status.PARTIAL, "limit", "capped"⟩]).explanation =
      (fallbackDecision [⟨"PolicyValidator", Status.PARTIAL, "limit", "capped"⟩]).explanation :=
  fallback_aggregator_pure _ _ rfl

/-- Models Python `str.find(c)` scanning from the left: the zero-based index
of the first occurrence, as an `Option`. -/
def pyFindAux (c : Char) : List Char → Option Nat
  | [] => none
  | x :: rest => if x = c then some 0 else (pyFindAux c rest).map (· + 1)

/-- Models Python `str.find(c)`: index of the first occurrence, `-1` when
absent. -/
def pyFind (c : Char) (s : List Char) : Int :=
  match pyFindAux c s with
  | some i => (i : Int)
  | none => -1

/-- Models Python `str.rfind(c)`: index of the last occurrence, `-1` when
absent. -/
def pyRFind (c : Char) (s : List Char) : Int :=
  match pyFindAux c s.reverse with
  | some i => ((s.length - 1 - i : Nat) : Int)
  | none => -1

/-- Embedding of the span selection in `BaseReActAgent.process_claim`
(src/src/agents/base.py lines 80-83): `json_start = last_message.find(lbrace)`,
`json_end = last_message.rfind(rbrace) + 1`, and the slice
`last_message[json_start:json_end]` is taken when `json_start != -1` and
`json_end > json_start`. -/
def extractJsonSpan (last_message : List Char) : Option (List Char) :=
  let json_start : Int := pyFind '\x7b' last_message
  let json_end : Int := pyRFind '\x7d' last_message + 1
  if json_start ≠ -1 ∧ json_end > json_start then
    some ((last_message.drop json_start.toNat).take (json_end - json_start).toNat)
  else
    none

/-- JSON values appearing in the flat objects this pipeline reads and writes. -/
inductive JsonValue where
  | jstr (s : String)
  | jint (n : Int)
  | jbool (b : Bool)
  | jnull
deriving DecidableEq, Repr

/-- JSON whitespace characters. -/
def isJsonWs (c : Char) : Bool :=
  c = ' ' ∨ c = '\n' ∨ c = '\t' ∨ c = '\r'

/-- Skip leading JSON whitespace. -/
def skipWs : List Char → List Char
  | [] => []
  | c :: rest => if isJsonWs c then skipWs rest else c :: rest

/-- JSON string escapes accepted by the model of `json.loads` (the `\uXXXX`
form is not modelled). -/
def unescapeChar (c : Char) : Option Char :=
  if c = '"' then some '"'
  else if c = '\\' then some '\\'
  else if c = '/' then some '/'
  else if c = 'n' then some '\n'
  else if c = 't' then some '\t'
  else if c = 'r' then some '\r'
  else if c = 'b' then some '\x08'
  else if c = 'f' then some '\x0c'
  else none

/-- Parse the body of a JSON string literal after the opening quote, up to and
including the closing quote; unescaped control characters are rejected as in
strict-mode `json.loads`. -/
def parseStringBody : List Char → Option (List Char × List Char)
  | [] => none
  | '"' :: rest => some ([], rest)
  | '\\' :: rest =>
      match rest with
      | [] => none
      | e :: rest' =>
        match unescapeChar e with
        | some c => (parseStringBody rest').map (fun p => (c :: p.1, p.2))
        | none => none
  | c :: rest =>
      if c.toNat < 32 then none
      else (parseStringBody rest).map (fun p => (c :: p.1, p.2))

/-- Consume a maximal run of decimal digits. -/
def spanDigits : List Char → (List Char × List Char)
  | [] => ([], [])
  | c :: rest =>
      if c.isDigit then
        let p := spanDigits rest
        (c :: p.1, p.2)
      else ([], c :: rest)

/-- Numeric value of a digit run. -/
def digitsToNat (ds : List Char) : Nat :=
  ds.foldl (fun acc c => acc * 10 + (c.toNat - 48)) 0

/-- Parse a JSON natural-number literal (no leading zeros, as in JSON). -/
def parseNatLiteral (s : List Char) : Option (Nat × List Char) :=
  match spanDigits s with
  | (ds, rest) =>
    match ds with
    | [] => none
    | d :: ds' =>
      if d = '0' ∧ ds' ≠ [] then none
      else some (digitsToNat (d :: ds'), rest)

/-- Parse a JSON integer literal with optional sign. -/
def parseIntValue : List Char → Option (Int × List Char)
  | '-' :: rest => (parseNatLiteral rest).map (fun p => (-(p.1 : Int), p.2))
  | s => (parseNatLiteral s).map (fun p => ((p.1 : Int), p.2))

/-- Parse one JSON scalar value: string, integer, boolean or null (the flat
fragment relevant to the Verdict shape; nested containers are not modelled). -/
def parseJsonValue : List Char → Option (JsonValue × List Char)
  | '"' :: rest => (parseStringBody rest).map (fun p => (JsonValue.jstr (String.mk p.1), p.2))
  | 't' :: 'r' :: 'u' :: 'e' :: rest => some (JsonValue.jbool true, rest)
  | 'f' :: 'a' :: 'l' :: 's' :: 'e' :: rest => some (JsonValue.jbool false, rest)
  | 'n' :: 'u' :: 'l' :: 'l' :: rest => some (JsonValue.jnull, rest)
  | s => (parseIntValue s).map (fun p => (JsonValue.jint p.1, p.2))

/-- Parse one `"key": value` member. -/
def parseMember (s : List Char) : Option ((String × JsonValue) × List Char) :=
  match skipWs s with
  | '"' :: rest =>
    match parseStringBody rest with
    | none => none
    | some (key, rest1) =>
      match skipWs rest1 with
      | ':' :: rest2 =>
        match parseJsonValue (skipWs rest2) with
        | none => none
        | some (v, rest3) => some ((String.mk key, v), rest3)
      | _ => none
  | _ => none

/-- Parse the members of a non-empty object after the opening brace, up to and
including the closing brace; the fuel argument bounds the number of members
(the input length suffices). -/
def parseMembers : Nat → List Char → Option (List (String × JsonValue) × List Char)
  | 0, _ => none
  | fuel + 1, s =>
    match parseMember s with
    | none => none
    | some (kv, rest) =>
      match skipWs rest with
      | ',' :: rest' => (parseMembers fuel rest').map (fun p => (kv :: p.1, p.2))
      | '\x7d' :: rest' => some ([kv], rest')
      | _ => none

/-- Models `json.loads` on the extracted span for the flat-object fragment:
optional surrounding whitespace, one object, nothing but whitespace after it
(trailing data is an error, as in Python). -/
def parseTopLevelObject (s : List Char) : Option (List (String × JsonValue)) :=
  match skipWs s with
  | '\x7b' :: rest =>
    match skipWs rest with
    | '\x7d' :: rest' => if (skipWs rest').isEmpty then some [] else none
    | _ =>
      match parseMembers (s.length + 1) rest with
      | none => none
      | some (kvs, rest') => if (skipWs rest').isEmpty then some kvs else none
  | _ => none

/-- Member lookup as Python dict construction from parsed pairs: a repeated
key keeps the last occurrence. -/
def lookupMember (key : String) (kvs : List (String × JsonValue)) : Option JsonValue :=
  (kvs.reverse.find? (fun kv => kv.1 == key)).map (fun kv => kv.2)

/-- The four-literal status enumeration check performed by pydantic on
`AgentResponse.status`. -/
def statusFromString : String → Option Status
  | "APPROVED" => some Status.APPROVED
  | "REJECTED" => some Status.REJECTED
  | "PARTIAL" => some Status.PARTIAL
  | "ESCALATE" => some Status.ESCALATE
  | _ => none

/-- Require a present, string-valued member (pydantic v2 does not coerce
non-string JSON values into `str` fields). -/
def asJsonString : Option JsonValue → Option String
  | some (JsonValue.jstr s) => some s
  | _ => none

/-- Models `AgentResponse(**response_dict)`: pydantic requires the four fields
to be present strings and the status to be one of the four literals; extra
members are ignored; a violation raises `ValidationError`, a subclass of
`ValueError`.  Error text is abstracted to a short description. -/
def validateAgentResponse (kvs : List (String × JsonValue)) : Except String AgentResponse :=
  match asJsonString (lookupMember "agent" kvs),
        asJsonString (lookupMember "status" kvs),
        asJsonString (lookupMember "reason" kvs),
        asJsonString (lookupMember "explanation" kvs) with
  | some a, some st, some rsn, some expl =>
    match statusFromString st with
    | some status => Except.ok ⟨a, status, rsn, expl⟩
    | none => Except.error "validation error: status is not one of the four literals"
  | _, _, _, _ => Except.error "validation error: missing or non-string required field"

/-- Models `json.loads` on the extracted span followed by
`AgentResponse(**response_dict)`: both failure modes surface as
`(json.JSONDecodeError, ValueError)` and carry an error text. -/
def parseAgentResponseJson (json_str : List Char) : Except String AgentResponse :=
  match parseTopLevelObject json_str with
  | none => Except.error "JSONDecodeError: invalid JSON"
  | some kvs => validateAgentResponse kvs

/-- Behaviour of one reasoning-engine invocation, a black box: it either
completes with final text or raises (timeout, transport fault, tool error —
all surfacing as exceptions with an error text). -/
inductive EngineResult where
  | finalText (text : List Char)
  | raised (err : String)

/-- Embedding of the extraction half of `BaseReActAgent.process_claim`
(src/src/agents/base.py lines 75-95): take the first-to-last-brace span,
parse and validate it; on any `(json.JSONDecodeError, ValueError)` — which
includes the missing-span `ValueError` and pydantic's `ValidationError` —
synthesize the parsing-error ESCALATE verdict. -/
def extractAgentResponse (agent_name : String) (last_message : List Char) : AgentResponse :=
  match extractJsonSpan last_message with
  | some json_str =>
    match parseAgentResponseJson json_str with
    | Except.ok resp => resp
    | Except.error e =>
        ⟨agent_name, Status.ESCALATE, "agent_parsing_error",
          "Failed to parse agent response: " ++ e⟩
  | none =>
      ⟨agent_name, Status.ESCALATE, "agent_parsing_error",
        "Failed to parse agent response: No JSON found in response"⟩

/-- Embedding of `BaseReActAgent.process_claim` (src/src/agents/base.py lines
50-104) as a function of the engine behaviour: on a returned final text run
extraction; on any exception from the invocation synthesize the
execution-error ESCALATE verdict. -/
def process_claim (agent_name : String) (engine : EngineResult) : AgentResponse :=
  match engine with
  | EngineResult.finalText last_message => extractAgentResponse agent_name last_message
  | EngineResult.raised e =>
      ⟨agent_name, Status.ESCALATE, "agent_execution_error",
        "Agent execution failed: " ++ e⟩

/-- Left-scan over an append: when the target is absent from the front part,
the scan continues into the back part with shifted indices. -/
theorem pyFindAux_append (c : Char) (xs ys : List Char) (h : c ∉ xs) :
    pyFindAux c (xs ++ ys) = (pyFindAux c ys).map (· + xs.length) := by
  induction xs with
  | nil =>
    cases hy : pyFindAux c ys <;> simp [hy]
  | cons x xs ih =>
    have hxc : ¬(x = c) := fun hh => h (hh ▸ List.mem_cons_self x xs)
    have h' : c ∉ xs := fun hm => h (List.mem_cons_of_mem x hm)
    have hstep : pyFindAux c ((x :: xs) ++ ys) = (pyFindAux c (xs ++ ys)).map (· + 1) := by
      simp [pyFindAux, if_neg hxc]
    rw [hstep, ih h']
    cases hy : pyFindAux c ys with
    | none => rfl
    | some v =>
      simp only [Option.map_some', Option.some.injEq, List.length_cons]
      omega

/-- Scan hitting the target at the head. -/
theorem pyFindAux_self (c : Char) (rest : List Char) :
    pyFindAux c (c :: rest) = some 0 := by
  simp [pyFindAux]

/-- Unfolding equation for `pyFind` on a successful scan. -/
theorem pyFind_eq (c : Char) (s : List Char) {i : Nat}
    (h : pyFindAux c s = some i) : pyFind c s = (i : Int) := by
  unfold pyFind
  rw [h]

/-- Unfolding equation for `pyRFind` on a successful reverse scan. -/
theorem pyRFind_eq (c : Char) (s : List Char) {i : Nat}
    (h : pyFindAux c s.reverse = some i) :
    pyRFind c s = ((s.length - 1 - i : Nat) : Int) := by
  unfold pyRFind
  rw [h]

/-- Models `str.find`: the first occurrence of `c` after a front part free of
`c` sits at the front part's length. -/
theorem pyFind_first (c : Char) (p1 rest : List Char) (h : c ∉ p1) :
    pyFind c (p1 ++ c :: rest) = (p1.length : Int) := by
  have hfa : pyFindAux c (p1 ++ c :: rest) = some (0 + p1.length) := by
    rw [pyFindAux_append c p1 (c :: rest) h, pyFindAux_self]
    rfl
  rw [pyFind_eq c _ hfa]
  omega

/-- Models `str.rfind`: the last occurrence of `c` before a tail free of `c`
sits at the front part's length. -/
theorem pyRFind_last (c : Char) (front p2 : List Char) (h : c ∉ p2) :
    pyRFind c (front ++ c :: p2) = (front.length : Int) := by
  have hrev : (front ++ c :: p2).reverse = p2.reverse ++ c :: front.reverse := by
    simp
  have hfa : pyFindAux c (front ++ c :: p2).reverse = some (0 + p2.reverse.length) := by
    rw [hrev, pyFindAux_append c p2.reverse (c :: front.reverse) (by simpa using h),
      pyFindAux_self]
    rfl
  rw [pyRFind_eq c _ hfa]
  simp only [List.length_append, List.length_cons, List.length_reverse]
  omega

/-- Span recovery: for a message that is prose, then an explicit
brace-delimited block, then prose, where the leading prose contains no
opening brace and the trailing prose contains no closing brace, the
first-to-last-brace span is exactly the block. -/
theorem extractJsonSpan_wrapped (p1 mid p2 : List Char)
    (h1 : '\x7b' ∉ p1) (h2 : '\x7d' ∉ p2) :
    extractJsonSpan (p1 ++ ('\x7b' :: (mid ++ ('\x7d' :: p2)))) =
      some ('\x7b' :: (mid ++ ['\x7d'])) := by
  have hfind : pyFind '\x7b' (p1 ++ ('\x7b' :: (mid ++ ('\x7d' :: p2)))) = (p1.length : Int) :=
    pyFind_first _ _ _ h1
  have hassoc : p1 ++ ('\x7b' :: (mid ++ ('\x7d' :: p2))) =
      (p1 ++ ('\x7b' :: mid)) ++ ('\x7d' :: p2) := by
    simp
  have hrfind : pyRFind '\x7d' (p1 ++ ('\x7b' :: (mid ++ ('\x7d' :: p2)))) =
      ((p1 ++ ('\x7b' :: mid)).length : Int) := by
    rw [hassoc]
    exact pyRFind_last _ _ _ h2
  have hlen2 : ((p1 ++ ('\x7b' :: mid)).length : Int) = (p1.length : Int) + mid.length + 1 := by
    simp
    omega
  simp only [extractJsonSpan]
  rw [hfind, hrfind, hlen2]
  have hcond : ((p1.length : Int) ≠ -1) ∧
      ((p1.length : Int) + mid.length + 1 + 1 > (p1.length : Int)) := by
    constructor <;> omega
  rw [if_pos hcond]
  have htonat1 : ((p1.length : Int)).toNat = p1.length := by omega
  have htonat2 : ((p1.length : Int) + mid.length + 1 + 1 - p1.length).toNat = mid.length + 2 := by
    omega
  rw [htonat1, htonat2]
  have hdrop : (p1 ++ ('\x7b' :: (mid ++ ('\x7d' :: p2)))).drop p1.length =
      '\x7b' :: (mid ++ ('\x7d' :: p2)) := List.drop_left p1 _
  rw [hdrop]
  have hblock : '\x7b' :: (mid ++ ('\x7d' :: p2)) = ('\x7b' :: (mid ++ ['\x7d'])) ++ p2 := by
    simp
  have hblen : ('\x7b' :: (mid ++ ['\x7d'])).length = mid.length + 2 := by
    simp
  rw [hblock, List.take_left' hblen]

/-- Helper: a string with a non-empty front part stays non-empty under
append. -/
theorem string_append_ne_empty (s t : String) (h : s.length ≠ 0) :
    s ++ t ≠ "" := by
  intro hc
  have hlen : (s ++ t).length = 0 := by rw [hc]; rfl
  rw [String.length_append] at hlen
  omega

/-- C2: the Agent Runner's extraction takes the span from the first opening
brace to the last closing brace of the engine's final text; when that span
parses and validates as a Verdict the parsed Verdict is returned; extraction
fails exactly on a missing span or on a parse/validation error of the span
(malformed JSON, missing required field, out-of-enumeration status — all
collapsed into the error result of `parseAgentResponseJson`), and then the
runner returns an ESCALATE verdict.  In particular, output consisting of one
well-formed Verdict JSON object surrounded by prose containing no braces
extracts successfully. -/
theorem agent_runner_extraction (agent_name : String) (v : AgentResponse)
    (p1 mid p2 : List Char)
    (hp1 : '\x7b' ∉ p1 ∧ '\x7d' ∉ p1)
    (hp2 : '\x7b' ∉ p2 ∧ '\x7d' ∉ p2)
    (hv : parseAgentResponseJson ('\x7b' :: (mid ++ ['\x7d'])) = Except.ok v) :
    extractAgentResponse agent_name (p1 ++ ('\x7b' :: (mid ++ ('\x7d' :: p2)))) = v
    ∧ (∀ msg span w, extractJsonSpan msg = some span →
        parseAgentResponseJson span = Except.ok w →
        extractAgentResponse agent_name msg = w)
    ∧ (∀ msg, extractJsonSpan msg = none →
        extractAgentResponse agent_name msg =
          ⟨agent_name, Status.ESCALATE, "agent_parsing_error",
            "Failed to parse agent response: No JSON found in response"⟩)
    ∧ (∀ msg span e, extractJsonSpan msg = some span →
        parseAgentResponseJson span = Except.error e →
        extractAgentResponse agent_name msg =
          ⟨agent_name, Status.ESCALATE, "agent_parsing_error",
            "Failed to parse agent response: " ++ e⟩) := by
  refine ⟨?_, ?_, ?_, ?_⟩
  · simp only [extractAgentResponse, extractJsonSpan_wrapped p1 mid p2 hp1.1 hp2.2, hv]
  · intro msg span w hspan hparse
    simp only [extractAgentResponse, hspan, hparse]
  · intro msg hspan
    simp only [extractAgentResponse, hspan]
  · intro msg span e hspan hparse
    simp only [extractAgentResponse, hspan, hparse]

/-- Witness for C2: a concrete engine output with prose on both sides of one
well-formed Verdict JSON object extracts to the parsed Verdict. -/
theorem agent_runner_extraction_witness :
    extractAgentResponse "PolicyValidator"
      (("Here is my verdict: ").toList ++ ('\x7b' ::
        (("\"agent\": \"PolicyValidator\", \"status\": \"APPROVED\", \"reason\": \"policy_valid\", \"explanation\": \"Policy active.\"").toList
          ++ ('\x7d' :: (" Done.").toList)))) =
      ⟨"PolicyValidator", Status.APPROVED, "policy_valid", "Policy active."⟩ :=
  (agent_runner_extraction "PolicyValidator"
      ⟨"PolicyValidator", Status.APPROVED, "policy_valid", "Policy active."⟩
      ("Here is my verdict: ").toList
      (("\"agent\": \"PolicyValidator\", \"status\": \"APPROVED\", \"reason\": \"policy_valid\", \"explanation\": \"Policy active.\"").toList)
      ((" Done.").toList)
      (by decide) (by decide) (by rfl)).1

/-- C3: every extraction failure — missing brace span, malformed JSON, or a
well-formed object that fails pydantic validation (missing required field or
out-of-enumeration status, both raising `ValueError` subclasses caught by the
inner handler) — yields the could-not-parse reason `agent_parsing_error`,
distinct from the `agent_execution_error` reason used when invoking the
engine raised, and in each case the explanation includes the underlying
error text. -/
theorem agent_runner_failure_reasons (agent_name : String) :
    (∀ msg, extractJsonSpan msg = none →
      process_claim agent_name (EngineResult.finalText msg) =
        ⟨agent_name, Status.ESCALATE, "agent_parsing_error",
          "Failed to parse agent response: No JSON found in response"⟩)
    ∧ (∀ msg span e, extractJsonSpan msg = some span →
        parseAgentResponseJson span = Except.error e →
        process_claim agent_name (EngineResult.finalText msg) =
          ⟨agent_name, Status.ESCALATE, "agent_parsing_error",
            "Failed to parse agent response: " ++ e⟩)
    ∧ (∀ e, process_claim agent_name (EngineResult.raised e) =
        ⟨agent_name, Status.ESCALATE, "agent_execution_error",
          "Agent execution failed: " ++ e⟩)
    ∧ ("agent_parsing_error" : String) ≠ "agent_execution_error" := by
  refine ⟨?_, ?_, ?_, by decide⟩
  · intro msg hspan
    simp only [process_claim, extractAgentResponse, hspan]
  · intro msg span e hspan hparse
    simp only [process_claim, extractAgentResponse, hspan, hparse]
  · intro e
    rfl

/-- Witness for C3: engine output with no braces at all is classified with
the could-not-parse reason. -/
theorem agent_runner_failure_reasons_witness :
    process_claim "FraudDetector" (EngineResult.finalText ("I cannot decide.").toList) =
      ⟨"FraudDetector", Status.ESCALATE, "agent_parsing_error",
        "Failed to parse agent response: No JSON found in response"⟩ :=
  (agent_runner_failure_reasons "FraudDetector").1 _ (by rfl)

/-- Counterexample to C4 as stated: a well-formed Verdict JSON whose `reason`
and `explanation` are empty strings passes pydantic validation, so the Agent
Runner returns a Verdict with empty reason and explanation — the claim's
"reason and explanation are non-empty" part is false on the code. -/
theorem agent_runner_nonempty_counterexample :
    (process_claim "PolicyValidator"
      (EngineResult.finalText
        ("\x7b\"agent\": \"PolicyValidator\", \"status\": \"APPROVED\", \"reason\": \"\", \"explanation\": \"\"\x7d").toList)).reason
      = ""
    ∧ (process_claim "PolicyValidator"
      (EngineResult.finalText
        ("\x7b\"agent\": \"PolicyValidator\", \"status\": \"APPROVED\", \"reason\": \"\", \"explanation\": \"\"\x7d").toList)).explanation
      = "" :=
  ⟨rfl, rfl⟩

/-- C4 (amended): for every engine behaviour `process_claim` is a total
function (the model of never propagating an exception) returning a Verdict
whose status is one of the four enumerated values; on every synthesized
failure path — engine exception or extraction failure — the reason and
explanation are non-empty; a successfully extracted verdict carries the
parsed fields verbatim, which may be empty. -/
theorem agent_runner_total (agent_name : String) (engine : EngineResult) :
    ((process_claim agent_name engine).status = Status.APPROVED ∨
      (process_claim agent_name engine).status = Status.REJECTED ∨
      (process_claim agent_name engine).status = Status.PARTIAL ∨
      (process_claim agent_name engine).status = Status.ESCALATE)
    ∧ (∀ e, engine = EngineResult.raised e →
        (process_claim agent_name engine).reason ≠ "" ∧
        (process_claim agent_name engine).explanation ≠ "")
    ∧ (∀ msg, engine = EngineResult.finalText msg →
        (extractJsonSpan msg = none ∨
          (∃ span e, extractJsonSpan msg = some span ∧
            parseAgentResponseJson span = Except.error e)) →
        (process_claim agent_name engine).reason ≠ "" ∧
        (process_claim agent_name engine).explanation ≠ "") := by
  refine ⟨?_, ?_, ?_⟩
  · cases hs : (process_claim agent_name engine).status <;> simp [hs]
  · intro e he
    subst he
    refine ⟨?_, ?_⟩
    · show ("agent_execution_error" : String) ≠ ""
      decide
    · show ("Agent execution failed: " ++ e) ≠ ""
      exact string_append_ne_empty _ _ (by decide)
  · intro msg he hfail
    subst he
    rcases hfail with hnone | ⟨span, e, hspan, hparse⟩
    · have hred : process_claim agent_name (EngineResult.finalText msg) =
          ⟨agent_name, Status.ESCALATE, "agent_parsing_error",
            "Failed to parse agent response: No JSON found in response"⟩ := by
        simp only [process_claim, extractAgentResponse, hnone]
      rw [hred]
      refine ⟨?_, ?_⟩
      · show ("agent_parsing_error" : String) ≠ ""
        decide
      · show ("Failed to parse agent response: No JSON found in response" : String) ≠ ""
        decide
    · have hred : process_claim agent_name (EngineResult.finalText msg) =
          ⟨agent_name, Status.ESCALATE, "agent_parsing_error",
            "Failed to parse agent response: " ++ e⟩ := by
        simp only [process_claim, extractAgentResponse, hspan, hparse]
      rw [hred]
      refine ⟨?_, ?_⟩
      · show ("agent_parsing_error" : String) ≠ ""
        decide
      · show ("Failed to parse agent response: " ++ e) ≠ ""
        exact string_append_ne_empty _ _ (by decide)

/-- Witness for C4 (amended): concrete raised-exception behaviour gives
non-empty synthesized reason and explanation. -/
theorem agent_runner_total_witness :
    (process_claim "DriverVerifier" (EngineResult.raised "timeout")).reason ≠ ""
    ∧ (process_claim "DriverVerifier" (EngineResult.raised "timeout")).explanation ≠ "" :=
  (agent_runner_total "DriverVerifier" (EngineResult.raised "timeout")).2.1 "timeout" rfl

/-- Outcome of awaiting one specialist agent's `process_claim()` call inside
the scheduler loop: either the returned response, or an exception caught by
the per-agent `except` block of `_parallel_processing_node`. -/
inductive AgentCallOutcome where
  | success (resp : AgentResponse)
  | raised (err : String)

/-- The fixed ordered list of specialist agent keys in
`ClaimProcessingWorkflow._parallel_processing_node` (src/src/workflow.py
lines 113-123); the ClaimDecider is excluded. -/
def processing_agent_names : List String :=
  ["policy_validator", "document_validator", "driver_verifier",
   "vehicle_damage_evaluator", "coverage_evaluator", "catastrophe_checker",
   "liability_assessor", "rental_benefit_checker", "fraud_detector"]

/-- Models `agent_name.replace("_", " ")`. -/
def pyReplaceUnderscoreWithSpace (s : List Char) : List Char :=
  s.map (fun c => if c = '_' then ' ' else c)

/-- Models Python `str.title()` on the ASCII agent keys: a letter directly
after a letter is lowercased, any other letter is uppercased. -/
def pyTitle (s : List Char) : List Char :=
  go false s
where
  go : Bool → List Char → List Char
    | _, [] => []
    | prevAlpha, c :: rest =>
      if c.isAlpha then
        (if prevAlpha then c.toLower else c.toUpper) :: go true rest
      else
        c :: go false rest

/-- One iteration of the scheduler loop (src/src/workflow.py lines 131-148):
on success append the agent's response; on a raised exception append the
synthesized ESCALATE error response carrying the prettified agent name (the
`asyncio.sleep` rate-limit delay between iterations affects timing only, not
the sequence, and is not modelled). -/
def scheduleAgent (behavior : String → AgentCallOutcome)
    (agent_name : String) : AgentResponse :=
  match behavior agent_name with
  | AgentCallOutcome.success resp => resp
  | AgentCallOutcome.raised e =>
      ⟨String.mk (pyTitle (pyReplaceUnderscoreWithSpace agent_name.toList)),
        Status.ESCALATE, "agent_execution_error",
        "Agent execution failed: " ++ e⟩

/-- Embedding of the verdict-collection loop of
`_parallel_processing_node`: one entry per specialist agent, appended in the
fixed list order. -/
def parallel_processing_responses
    (behavior : String → AgentCallOutcome) : List AgentResponse :=
  processing_agent_names.map (scheduleAgent behavior)

/-- C5: for every behaviour of the specialist agents (any subset failing),
the scheduler produces exactly 9 verdicts, one per agent, in the fixed agent
order, with each slot determined solely by that agent's own outcome; a raised
exception in one slot yields that slot's synthesized ESCALATE verdict and
leaves every other slot exactly as it would have been — one agent's failure
never prevents the remaining agents from contributing. -/
theorem scheduler_fixed_order_and_isolation
    (behavior : String → AgentCallOutcome) :
    (parallel_processing_responses behavior).length = 9
    ∧ processing_agent_names.length = 9
    ∧ parallel_processing_responses behavior =
        [scheduleAgent behavior "policy_validator",
         scheduleAgent behavior "document_validator",
         scheduleAgent behavior "driver_verifier",
         scheduleAgent behavior "vehicle_damage_evaluator",
         scheduleAgent behavior "coverage_evaluator",
         scheduleAgent behavior "catastrophe_checker",
         scheduleAgent behavior "liability_assessor",
         scheduleAgent behavior "rental_benefit_checker",
         scheduleAgent behavior "fraud_detector"]
    ∧ (∀ name e, behavior name = AgentCallOutcome.raised e →
        scheduleAgent behavior name =
          ⟨String.mk (pyTitle (pyReplaceUnderscoreWithSpace name.toList)),
            Status.ESCALATE, "agent_execution_error",
            "Agent execution failed: " ++ e⟩)
    ∧ (∀ behavior2 : String → AgentCallOutcome, ∀ failing : String,
        (∀ n, n ≠ failing → behavior n = behavior2 n) →
        ∀ n ∈ processing_agent_names, n ≠ failing →
          scheduleAgent behavior n = scheduleAgent behavior2 n) := by
  refine ⟨rfl, rfl, rfl, ?_, ?_⟩
  · intro name e hb
    simp only [scheduleAgent, hb]
  · intro behavior2 failing hagree n _ hne
    simp only [scheduleAgent, hagree n hne]

/-- Witness for C5: with every agent succeeding except the catastrophe
checker (which raises), the other agents' slots match the all-success run,
and the failing slot carries the synthesized error verdict. -/
theorem scheduler_fixed_order_and_isolation_witness :
    scheduleAgent
        (fun n => if n = "catastrophe_checker"
          then AgentCallOutcome.raised "boom"
          else AgentCallOutcome.success ⟨"X", Status.APPROVED, "ok", "fine"⟩)
        "fraud_detector" =
      scheduleAgent
        (fun _ => AgentCallOutcome.success ⟨"X", Status.APPROVED, "ok", "fine"⟩)
        "fraud_detector" :=
  (scheduler_fixed_order_and_isolation
      (fun n => if n = "catastrophe_checker"
        then AgentCallOutcome.raised "boom"
        else AgentCallOutcome.success ⟨"X", Status.APPROVED, "ok", "fine"⟩)).2.2.2.2
    (fun _ => AgentCallOutcome.success ⟨"X", Status.APPROVED, "ok", "fine"⟩)
    "catastrophe_checker"
    (fun n hn => by simp [hn])
    "fraud_detector" (by decide) (by decide)

/-- Calendar date as carried by the pydantic `date` fields; only its ISO
rendering matters to the embedded tools. -/
structure PyDate where
  year : Nat
  month : Nat
  day : Nat
deriving DecidableEq, Repr

/-- Zero-padded decimal rendering. -/
def padZeros (width : Nat) (n : Nat) : String :=
  let s := toString n
  String.mk (List.replicate (width - s.length) '0') ++ s

/-- Models Python `str(date)`: ISO `YYYY-MM-DD`. -/
def PyDate.isoFormat (d : PyDate) : String :=
  padZeros 4 d.year ++ "-" ++ padZeros 2 d.month ++ "-" ++ padZeros 2 d.day

/-- Embedding of `models.ClaimData`: the immutable per-claim fact record. -/
structure ClaimData where
  claim_id : String
  incident_date : PyDate
  report_date : PyDate
  state : String
  policy_start_date : PyDate
  policy_end_date : PyDate
  coverage_suspension_start : Option PyDate
  coverage_suspension_end : Option PyDate
  cancellation_reason : Option String
  per_claim_limit : Int
  annual_aggregate_limit : Int
  remaining_aggregate_limit : Int
  endorsement_rental_days_allowed : Int
  endorsement_rental_daily_cap : Int
  endorsement_um_uim : Bool
  endorsement_diminished_value : Bool
  endorsement_rideshare_use : Bool
  driver_name : String
  driver_license_status : String
  driver_listed_on_policy : Bool
  driver_excluded : Bool
  driver_under_influence : Bool
  driver_use_type : String
  vin : String
  odometer_at_loss : Int
  telematics_odometer : Int
  damage_description : String
  damage_type : String
  repair_estimate : Int
  actual_cash_value : Int
  aftermarket_mods : Bool
  recall_active : Bool
  police_report_attached : Bool
  loss_location_flood_zone : String
  cat_event_code : Option String
  rental_days_claimed : Int
  loss_of_use_daily_rate : Int
  at_fault_party : String
  insured_liability_percent : Int
  third_party_insurer : Option String
  injuries_reported : Bool
  primary_med_provider : Option String
  expected_status : Option String
  expected_reason : Option String
deriving DecidableEq, Repr

/-- JSON string escaping as performed by `json.dumps` on the characters
occurring here. -/
def jsonEscapeChar (c : Char) : String :=
  if c = '"' then "\\\""
  else if c = '\\' then "\\\\"
  else if c = '\n' then "\\n"
  else if c = '\t' then "\\t"
  else if c = '\r' then "\\r"
  else String.singleton c

/-- Quote a string as a JSON string literal. -/
def jsonQuote (s : String) : String :=
  "\"" ++ String.join (s.toList.map jsonEscapeChar) ++ "\""

/-- Render one JSON scalar as `json.dumps` does. -/
def dumpJsonValue : JsonValue → String
  | JsonValue.jstr s => jsonQuote s
  | JsonValue.jint n => toString n
  | JsonValue.jbool true => "true"
  | JsonValue.jbool false => "false"
  | JsonValue.jnull => "null"

/-- Models `json.dumps(info, indent=2)` on a flat non-empty dict. -/
def jsonDumpsIndent2 (kvs : List (String × JsonValue)) : String :=
  "\x7b\n" ++ String.intercalate ",\n"
    (kvs.map (fun kv => "  " ++ jsonQuote kv.1 ++ ": " ++ dumpJsonValue kv.2))
    ++ "\n\x7d"

/-- The module-level mutable slot `_current_claim_data` of src/src/tools.py,
modelled in explicit state-passing style; it starts as `None`. -/
abbrev ClaimSlot := Option ClaimData

/-- Embedding of `set_current_claim_data` (src/src/tools.py lines 16-19):
overwrite the slot unconditionally, returning `None` as the Python function
does. -/
def set_current_claim_data (claim_data : ClaimData) (_slot : ClaimSlot) :
    Unit × ClaimSlot :=
  ((), some claim_data)

/-- Embedding of the `get_claim_basic_info` tool (src/src/tools.py lines
22-36): a read-only projection of the active ClaimFacts (a pydantic model is
always truthy, so only an unset slot yields the no-data message). -/
def get_claim_basic_info (slot : ClaimSlot) : String × ClaimSlot :=
  match slot with
  | none => ("No claim data available", slot)
  | some c =>
      (jsonDumpsIndent2
        [("claim_id", JsonValue.jstr c.claim_id),
         ("incident_date", JsonValue.jstr c.incident_date.isoFormat),
         ("report_date", JsonValue.jstr c.report_date.isoFormat),
         ("state", JsonValue.jstr c.state),
         ("damage_type", JsonValue.jstr c.damage_type),
         ("damage_description", JsonValue.jstr c.damage_description)], slot)

/-- Embedding of the `check_mileage_discrepancy` tool (src/src/tools.py lines
197-215): flags the claim as suspicious exactly when the reported odometer at
loss exceeds the telematics odometer by strictly more than the fixed
3000-mile variance. -/
def check_mileage_discrepancy (slot : ClaimSlot) : String × ClaimSlot :=
  match slot with
  | none => ("No claim data available", slot)
  | some c =>
      let allowed_variance : Int := 3000
      let discrepancy : Int := c.odometer_at_loss - c.telematics_odometer
      let is_suspicious : Bool := discrepancy > allowed_variance
      (jsonDumpsIndent2
        [("odometer_at_loss", JsonValue.jint c.odometer_at_loss),
         ("telematics_odometer", JsonValue.jint c.telematics_odometer),
         ("discrepancy", JsonValue.jint discrepancy),
         ("allowed_variance", JsonValue.jint allowed_variance),
         ("is_suspicious", JsonValue.jbool is_suspicious)], slot)

/-- C9: `set` replaces the slot unconditionally for any prior contents, and a
subsequent reader observes exactly the most recently set ClaimFacts — setting
`facts1` then `facts2` then reading yields the basic-info projection of
`facts2` alone, and reading leaves the slot untouched. -/
theorem claim_context_last_write_wins (s0 : ClaimSlot)
    (facts1 facts2 : ClaimData) :
    (∀ st f, (set_current_claim_data f st).2 = some f)
    ∧ (set_current_claim_data facts2
        ((set_current_claim_data facts1 s0).2)).2 = some facts2
    ∧ (get_claim_basic_info
        ((set_current_claim_data facts2
          ((set_current_claim_data facts1 s0).2)).2)).1 =
        jsonDumpsIndent2
          [("claim_id", JsonValue.jstr facts2.claim_id),
           ("incident_date", JsonValue.jstr facts2.incident_date.isoFormat),
           ("report_date", JsonValue.jstr facts2.report_date.isoFormat),
           ("state", JsonValue.jstr facts2.state),
           ("damage_type", JsonValue.jstr facts2.damage_type),
           ("damage_description", JsonValue.jstr facts2.damage_description)]
    ∧ (get_claim_basic_info
        ((set_current_claim_data facts2
          ((set_current_claim_data facts1 s0).2)).2)).2 = some facts2 :=
  ⟨fun _ _ => rfl, rfl, rfl, rfl⟩

/-- C10: the mileage-discrepancy tool is a pure read-only projection — it
returns the serialized snapshot whose `is_suspicious` field is true exactly
when `odometer_at_loss - telematics_odometer > 3000` (strict), it never
mutates the slot, and a telematics reading at or above the reported odometer
(non-positive discrepancy) is never flagged. -/
theorem mileage_discrepancy_tool (c : ClaimData) :
    (check_mileage_discrepancy (some c)).1 =
      jsonDumpsIndent2
        [("odometer_at_loss", JsonValue.jint c.odometer_at_loss),
         ("telematics_odometer", JsonValue.jint c.telematics_odometer),
         ("discrepancy", JsonValue.jint (c.odometer_at_loss - c.telematics_odometer)),
         ("allowed_variance", JsonValue.jint 3000),
         ("is_suspicious", JsonValue.jbool
           (decide (c.odometer_at_loss - c.telematics_odometer > 3000)))]
    ∧ (∀ s : ClaimSlot, (check_mileage_discrepancy s).2 = s)
    ∧ (c.telematics_odometer ≥ c.odometer_at_loss →
        (check_mileage_discrepancy (some c)).1 =
          jsonDumpsIndent2
            [("odometer_at_loss", JsonValue.jint c.odometer_at_loss),
             ("telematics_odometer", JsonValue.jint c.telematics_odometer),
             ("discrepancy", JsonValue.jint (c.odometer_at_loss - c.telematics_odometer)),
             ("allowed_variance", JsonValue.jint 3000),
             ("is_suspicious", JsonValue.jbool false)]) := by
  refine ⟨rfl, ?_, ?_⟩
  · intro s
    cases s <;> rfl
  · intro hle
    have hns : decide (c.odometer_at_loss - c.telematics_odometer > 3000) = false := by
      simp only [decide_eq_false_iff_not]
      omega
    calc (check_mileage_discrepancy (some c)).1
        = jsonDumpsIndent2
            [("odometer_at_loss", JsonValue.jint c.odometer_at_loss),
             ("telematics_odometer", JsonValue.jint c.telematics_odometer),
             ("discrepancy", JsonValue.jint (c.odometer_at_loss - c.telematics_odometer)),
             ("allowed_variance", JsonValue.jint 3000),
             ("is_suspicious", JsonValue.jbool
               (decide (c.odometer_at_loss - c.telematics_odometer > 3000)))] := rfl
      _ = _ := by rw [hns]

/-- Sample claim record used to instantiate the tool theorems, with the
telematics odometer above the reported odometer at loss. -/
def sampleClaim : ClaimData :=
  ⟨"CLM-1001", ⟨2024, 3, 15⟩, ⟨2024, 3, 18⟩, "CA", ⟨2023, 11, 1⟩, ⟨2024, 11, 1⟩,
    none, none, none, 50000, 100000, 80000, 30, 50, true, false, false,
    "Jordan Smith", "valid", true, false, false, "personal",
    "1HGCM82633A004352", 42000, 45200, "rear bumper dent", "collision",
    3800, 18000, false, false, true, "none", none, 5, 40, "third_party", 20,
    some "OtherInsurer", false, none, none, none⟩

/-- Witness for C10: for the sample claim the telematics reading exceeds the
reported odometer, and the rendered snapshot carries a false suspicion flag. -/
theorem mileage_discrepancy_tool_witness :
    (check_mileage_discrepancy (some sampleClaim)).1 =
      jsonDumpsIndent2
        [("odometer_at_loss", JsonValue.jint sampleClaim.odometer_at_loss),
         ("telematics_odometer", JsonValue.jint sampleClaim.telematics_odometer),
         ("discrepancy", JsonValue.jint
           (sampleClaim.odometer_at_loss - sampleClaim.telematics_odometer)),
         ("allowed_variance", JsonValue.jint 3000),
         ("is_suspicious", JsonValue.jbool false)] :=
  (mileage_discrepancy_tool sampleClaim).2.2 (by decide)

/-- Embedding of `ClaimDeciderAgent.make_final_decision`
(src/src/agents/claim_decider/agent.py lines 22-109): the primary path
invokes the reasoning engine and extracts the first-to-last-brace JSON span;
there is no inner handler, so an engine exception, a missing span, malformed
JSON or a pydantic validation failure all land in the `except` branch, which
runs the deterministic fallback over the collected responses. -/
def make_final_decision (engine : EngineResult)
    (agent_responses : List AgentResponse) : AgentResponse :=
  match engine with
  | EngineResult.raised _ => fallbackDecision agent_responses
  | EngineResult.finalText last_message =>
    match extractJsonSpan last_message with
    | none => fallbackDecision agent_responses
    | some json_str =>
      match parseAgentResponseJson json_str with
      | Except.ok resp => resp
      | Except.error _ => fallbackDecision agent_responses

/-- Embedding of the LangGraph `ClaimState` TypedDict (src/src/workflow.py
lines 24-30); the initially empty `final_decision` dict is modelled as
`none`. -/
structure ClaimState where
  claim_data : ClaimData
  agent_responses : List AgentResponse
  final_decision : Option AgentResponse
  processing_complete : Bool
  current_step : String
deriving Repr

/-- Embedding of `ClaimProcessingState` (src/src/models.py lines 62-67), the
caller-facing result record. -/
structure ClaimProcessingState where
  claim_data : ClaimData
  agent_responses : List AgentResponse
  final_decision : Option AgentResponse
  processing_complete : Bool
deriving Repr

/-- The initial LangGraph state built by
`ClaimProcessingWorkflow.process_claim` (src/src/workflow.py lines 180-186). -/
def initialClaimState (claim_data : ClaimData) : ClaimState :=
  ⟨claim_data, [], none, false, "start"⟩

/-- Embedding of `_parallel_processing_node` as a state transformer: populate
the verdict sequence (the `set_current_claim_data` side effect is on the tool
slot, modelled separately in explicit state-passing style). -/
def sequential_processing_node (behavior : String → AgentCallOutcome)
    (state : ClaimState) : ClaimState :=
  { state with
      agent_responses := parallel_processing_responses behavior
      current_step := "sequential_processing" }

/-- Embedding of `_claim_decision_node` (src/src/workflow.py lines 166-176):
aggregate the collected responses into the final decision and mark
processing complete. -/
def claim_decision_node (decider_engine : EngineResult)
    (state : ClaimState) : ClaimState :=
  { state with
      final_decision := some (make_final_decision decider_engine state.agent_responses)
      processing_complete := true
      current_step := "claim_decision" }

/-- Embedding of the run entry point `ClaimProcessingWorkflow.process_claim`
(src/src/workflow.py lines 178-200) over the compiled two-node graph
(`_build_workflow`, lines 88-103): entry at `sequential_processing`, one edge
to `claim_decision`, one edge to END. -/
def workflow_process_claim (behavior : String → AgentCallOutcome)
    (decider_engine : EngineResult) (claim_data : ClaimData) :
    ClaimProcessingState :=
  let s0 := initialClaimState claim_data
  let s1 := sequential_processing_node behavior s0
  let s2 := claim_decision_node decider_engine s1
  ⟨claim_data, s2.agent_responses, s2.final_decision, s2.processing_complete⟩

/-- C6: for every valid claim record and every behaviour of the engines, the
pipeline entry point terminates (a total function: the model of never
raising) with `processing_complete = true` and exactly one final verdict
whose status is one of the four enumerated values. -/
theorem pipeline_always_decides (behavior : String → AgentCallOutcome)
    (decider_engine : EngineResult) (claim_data : ClaimData) :
    (workflow_process_claim behavior decider_engine claim_data).processing_complete = true
    ∧ ∃ d, (workflow_process_claim behavior decider_engine claim_data).final_decision = some d
        ∧ (d.status = Status.APPROVED ∨ d.status = Status.REJECTED ∨
            d.status = Status.PARTIAL ∨ d.status = Status.ESCALATE) := by
  refine ⟨rfl, make_final_decision decider_engine (parallel_processing_responses behavior),
    rfl, ?_⟩
  cases hs : (make_final_decision decider_engine (parallel_processing_responses behavior)).status <;>
    simp

/-- Workflow phase abstraction, named from the spec's state machine: PENDING
before any verdicts exist, VERDICTS_GATHERED once the verdict sequence is
populated but the run is not complete, DECIDED once processing is complete. -/
inductive WorkflowPhase where
  | PENDING
  | VERDICTS_GATHERED
  | DECIDED
deriving DecidableEq, Repr

/-- Abstraction map from concrete LangGraph states to spec phases. -/
def phaseOf (s : ClaimState) : WorkflowPhase :=
  if s.processing_complete then WorkflowPhase.DECIDED
  else if s.agent_responses.isEmpty then WorkflowPhase.PENDING
  else WorkflowPhase.VERDICTS_GATHERED

/-- The sequence of phases visited by one run of the two-node graph: the
initial state, the state after the scheduler node, the state after the
decision node. -/
def workflow_phase_trace (behavior : String → AgentCallOutcome)
    (decider_engine : EngineResult) (claim_data : ClaimData) :
    List WorkflowPhase :=
  let s0 := initialClaimState claim_data
  let s1 := sequential_processing_node behavior s0
  let s2 := claim_decision_node decider_engine s1
  [phaseOf s0, phaseOf s1, phaseOf s2]

/-- C8: every execution visits exactly PENDING, then VERDICTS_GATHERED, then
DECIDED (terminal) — no other phase occurs and none repeats; the scheduler
node performs the first transition and the decision (aggregator) node the
second; and the aggregation stage observes the complete 9-entry verdict
sequence, its final decision being computed from exactly that sequence. -/
theorem workflow_state_machine (behavior : String → AgentCallOutcome)
    (decider_engine : EngineResult) (claim_data : ClaimData) :
    workflow_phase_trace behavior decider_engine claim_data =
      [WorkflowPhase.PENDING, WorkflowPhase.VERDICTS_GATHERED, WorkflowPhase.DECIDED]
    ∧ (workflow_phase_trace behavior decider_engine claim_data).Nodup
    ∧ phaseOf (initialClaimState claim_data) = WorkflowPhase.PENDING
    ∧ phaseOf (sequential_processing_node behavior (initialClaimState claim_data)) =
        WorkflowPhase.VERDICTS_GATHERED
    ∧ phaseOf (claim_decision_node decider_engine
        (sequential_processing_node behavior (initialClaimState claim_data))) =
        WorkflowPhase.DECIDED
    ∧ (sequential_processing_node behavior (initialClaimState claim_data)).agent_responses =
        parallel_processing_responses behavior
    ∧ (parallel_processing_responses behavior).length = 9
    ∧ (claim_decision_node decider_engine
        (sequential_processing_node behavior (initialClaimState claim_data))).final_decision =
        some (make_final_decision decider_engine (parallel_processing_responses behavior)) := by
  have hmid : phaseOf (sequential_processing_node behavior (initialClaimState claim_data)) =
      WorkflowPhase.VERDICTS_GATHERED := by
    simp [phaseOf, sequential_processing_node, initialClaimState,
      parallel_processing_responses, processing_agent_names]
  refine ⟨?_, ?_, rfl, hmid, rfl, rfl, rfl, rfl⟩
  · show [phaseOf (initialClaimState claim_data),
      phaseOf (sequential_processing_node behavior (initialClaimState claim_data)),
      phaseOf (claim_decision_node decider_engine
        (sequential_processing_node behavior (initialClaimState claim_data)))] = _
    rw [hmid]
    rfl
  · show ([phaseOf (initialClaimState claim_data),
      phaseOf (sequential_processing_node behavior (initialClaimState claim_data)),
      phaseOf (claim_decision_node decider_engine
        (sequential_processing_node behavior (initialClaimState claim_data)))] :
        List WorkflowPhase).Nodup
    rw [hmid]
    show ([WorkflowPhase.PENDING, WorkflowPhase.VERDICTS_GATHERED,
      WorkflowPhase.DECIDED] : List WorkflowPhase).Nodup
    decide
